import Mathlib

/-!
Verification of `src/invoice_app.py` (InvoiceCreatorEL).

Shallow embedding conventions:
* Monetary amounts are rationals (`ℚ`).  Python's `round(x, 2)` is modelled as
  decimal round-half-to-even (`round2` below); Python's `round` uses banker's
  rounding, and the spec allows either half-even or half-up as long as the
  choice is consistent.
* Pandas cells that may be empty (`NaN`) are `Option`; `dropna` is a filter on
  `Option.isSome`.  The string-to-float parse of the `Base Rate` column
  (comma stripping, `astype(float)`) is abstracted to the parsed rational:
  an empty cell is `none`, a parsed cell is `some q`.  No claim concerns the
  parse-failure path.
* Fallible code (pandas `iloc[-1]` on an empty frame, attribute access on a
  missing record) is modelled with `Except String`.
* Streamlit widget state reaching a code path is passed as explicit arguments
  (`mode` and `currency` are the literal strings of the radio/selectbox), and
  `datetime.date.today()` is an explicit `today` argument.
* The PDF is modelled as its text content in layout order (`PdfDoc`); each
  `pdf.cell` / `pdf.multi_cell` call site becomes one field or one tagged
  line, so distinct call sites stay distinguishable.
-/

namespace InvoiceApp

/-- The fixed conversion table of `convert_currency` / `get_currency_note`
    (DKK per 1 unit of target currency): EUR 7.5, USD 6.5, GBP 8.8. -/
def rates : String → Option ℚ
  | "EUR" => some (15/2)
  | "USD" => some (13/2)
  | "GBP" => some (44/5)
  | _ => none

/-- Round a rational to the nearest integer, ties to even
    (Python's `round` with no digits). -/
def roundHalfEven (q : ℚ) : ℤ :=
  if Int.fract q < 1/2 then ⌊q⌋
  else if 1/2 < Int.fract q then ⌊q⌋ + 1
  else if Even ⌊q⌋ then ⌊q⌋ else ⌊q⌋ + 1

/-- Python's `round(x, 2)`: round to 2 decimal places, ties to even. -/
def round2 (q : ℚ) : ℚ := (roundHalfEven (100 * q) : ℚ) / 100

/-- `convert_currency(amount_dkk, target_currency)` (source lines 54-61):
    `rate = rates.get(target_currency)`;
    `return round(amount_dkk / rate, 2) if rate else amount_dkk`.
    (`if rate` is Python truthiness: `None` and `0.0` are falsy.) -/
def convert_currency (amount_dkk : ℚ) (target_currency : String) : ℚ :=
  match rates target_currency with
  | some rate => if rate = 0 then amount_dkk else round2 (amount_dkk / rate)
  | none => amount_dkk

/-- `get_currency_note(currency)` (source lines 63-69). -/
def get_currency_note (currency : String) : String :=
  match rates currency with
  | some rate => currency ++ " (1 " ++ currency ++ " = " ++ toString rate ++ " DKK)"
  | none => currency

/-- Source line 225:
    `final_total = convert_currency(total_amount_dkk, currency)
       if mode == "Auto from Excel" and currency != "DKK" else total_amount_dkk`. -/
def final_total (mode currency : String) (total_amount_dkk : ℚ) : ℚ :=
  if mode = "Auto from Excel" ∧ currency ≠ "DKK" then
    convert_currency total_amount_dkk currency
  else total_amount_dkk

/-- One uploaded spreadsheet row after the column selection
    `df[['Trip Date', 'Passenger', 'From', 'To', 'Customer', 'Cust. Ref.',
    'Base Rate']]` (source line 186-187).  `baseRate` is the `Base Rate` cell:
    `none` for an empty (`NaN`) cell, otherwise the parsed numeric value. -/
structure RawRow where
  tripDate : String
  passenger : String
  origin : String
  dest : String
  customer : String
  custRef : String
  baseRate : Option ℚ
deriving DecidableEq

/-- `cleaned_df.dropna(subset=['Base Rate'])` (source line 188). -/
def dropEmpty (rows : List RawRow) : List RawRow :=
  rows.filter (fun r => r.baseRate.isSome)

/-- The `Base Rate` column of a frame as a series of numbers
    (cells that are present). -/
def baseRates (rows : List RawRow) : List ℚ :=
  rows.filterMap (fun r => r.baseRate)

/-- Source lines 190-193: `last_value = cleaned_df['Base Rate'].iloc[-1]`
    (raises `IndexError` on an empty frame);
    `sum_except_last = cleaned_df['Base Rate'].iloc[:-1].sum()`;
    `if abs(last_value - sum_except_last) < 1.0: cleaned_df = cleaned_df.iloc[:-1]`. -/
def dropTrailingTotal (cleaned : List RawRow) : Except String (List RawRow) :=
  match (baseRates cleaned).getLast? with
  | none => .error "IndexError: single positional indexer is out-of-bounds"
  | some lastValue =>
    if |lastValue - (baseRates cleaned).dropLast.sum| < 1 then
      .ok cleaned.dropLast
    else
      .ok cleaned

/-- The whole upload-cleaning block (source lines 184-193): drop rows with an
    empty `Base Rate`, then apply the trailing-total-row heuristic. -/
def cleanUpload (rows : List RawRow) : Except String (List RawRow) :=
  dropTrailingTotal (dropEmpty rows)

/-- Source lines 184-197: the upload block's resulting
    `(cleaned_df, booking_count, total_amount_dkk)`.  `booking_count` and
    `total_amount_dkk` keep their initial values `0` (lines 180-181) unless
    `mode == "Auto from Excel"`, in which case
    `booking_count = cleaned_df.shape[0]` and
    `total_amount_dkk = cleaned_df['Base Rate'].sum()`. -/
def uploadState (rows : List RawRow) (mode : String) :
    Except String (List RawRow × ℕ × ℚ) :=
  match cleanUpload rows with
  | .error e => .error e
  | .ok cleaned =>
    if mode = "Auto from Excel" then
      .ok (cleaned, cleaned.length, (baseRates cleaned).sum)
    else
      .ok (cleaned, 0, 0)

/-- A customer record (the `Customer` ORM model, source lines 20-28).
    Nullable string columns are modelled as strings where `""` plays the role
    of both `NULL` and the empty string (both are falsy in the source's
    truthiness tests). -/
structure Customer where
  name : String
  address : String
  email : String
  contact : String
  vat : String
  is_company : Bool
deriving DecidableEq

/-- One rendered line of the bill-to ("To:") block, tagged by the
    `pdf.cell` / `pdf.multi_cell` call site that produced it
    (source lines 104-118). -/
inductive BillToLine
  | name (s : String)
  | contact (s : String)
  | address (s : String)
  | vat (s : String)
  | email (s : String)
deriving DecidableEq

/-- Source lines 104-118: the bill-to block.  Each guard is Python string
    truthiness (`if receiver.name:` etc.); the VAT guard is
    `if receiver.vat and receiver.is_company:`. -/
def billTo (receiver : Customer) : List BillToLine :=
  (if receiver.name ≠ "" then [BillToLine.name receiver.name] else []) ++
  (if receiver.contact ≠ "" then [BillToLine.contact ("Att: " ++ receiver.contact)] else []) ++
  (if receiver.address ≠ "" then [BillToLine.address receiver.address] else []) ++
  (if receiver.vat ≠ "" ∧ receiver.is_company then
    [BillToLine.vat ("VAT No: " ++ receiver.vat)] else []) ++
  (if receiver.email ≠ "" then [BillToLine.email ("Email: " ++ receiver.email)] else [])

/-- Decimal digits of a natural number with thousands separators, built from
    the least-significant digit first (input is the reversed digit list). -/
def group3Rev (ds : List Char) : List Char :=
  if _h : ds.length ≤ 3 then ds
  else ds.take 3 ++ ',' :: group3Rev (ds.drop 3)
termination_by ds.length
decreasing_by
  simp only [List.length_drop]
  omega

/-- Render a natural number in decimal with thousands separators. -/
def fmtGrouped (n : ℕ) : String :=
  String.mk ((group3Rev (Nat.toDigits 10 n).reverse).reverse)

/-- Python's float format `f"{x:,.2f}"`: two decimal places (ties to even)
    with thousands separators in the integer part. -/
def fmtMoney (x : ℚ) : String :=
  let cents : ℤ := roundHalfEven (100 * x)
  let sign := if cents < 0 then "-" else ""
  let a : ℕ := cents.natAbs
  sign ++ fmtGrouped (a / 100) ++ "." ++
    (if a % 100 < 10 then "0" else "") ++ toString (a % 100)

/-- The text content of the generated PDF, in layout order. -/
structure PdfDoc where
  title : String
  fromBlock : String
  billToBlock : List BillToLine
  invoiceDateLine : String
  dueDateLine : String
  currencyLine : String
  itemDescription : String
  itemQty : String
  itemTotal : String
  subtotalValue : String
  totalDueValue : String
  paymentNote : String
deriving DecidableEq

/-- `generate_invoice_pdf` (source lines 72-154), modelled as the document's
    text content.  `today` (`datetime.date.today().strftime(...)`) and the
    formatted due date are environment inputs passed as strings; the optional
    logo image affects no text.  The subtotal cell (line 144) formats
    `float(total_amount)` and the amount-due cell (line 148) formats
    `total_amount`: the same numeric value. -/
def generate_invoice_pdf (receiver : Customer)
    (invoice_number currency description : String) (total_amount : ℚ)
    (booking_count : ℕ) (due_date_fmt today : String) : PdfDoc :=
  { title := "INVOICE " ++ invoice_number
    fromBlock := "Limousine Service Xpress ApS\nIndustriholmen 82\n2650 Hvidovre\nDenmark\nCVR: DK45247961\nIBAN: LT87 3250 0345 4552 5735\nSWIFT: REVOLT21\nEmail: limoexpresscph@gmail.com"
    billToBlock := billTo receiver
    invoiceDateLine := "Invoice Date: " ++ today
    dueDateLine := "Due Date: " ++ due_date_fmt
    currencyLine := "Currency: " ++ get_currency_note currency
    itemDescription := if description ≠ "" then description else "Transfers"
    itemQty := toString booking_count
    itemTotal := fmtMoney total_amount ++ " " ++ currency
    subtotalValue := fmtMoney total_amount ++ " " ++ currency
    totalDueValue := fmtMoney total_amount ++ " " ++ currency
    paymentNote := "Please add invoice number " ++ invoice_number ++
      " as reference when making payment." }

/-- The "Generate Invoice" button handler (source lines 203-228).  The only
    validation is `if not receiver or not invoice_number` (line 204); on
    success the PDF is produced with the `final_total` of line 225.  The
    companion spreadsheet path touches no PDF content and raises nothing. -/
def generateInvoice (receiver : Option Customer)
    (invoice_number currency mode description : String) (total_amount_dkk : ℚ)
    (booking_count : ℕ) (due_date_fmt today : String) : Except String PdfDoc :=
  match receiver with
  | none => .error "Customer and Invoice Number are required."
  | some r =>
    if invoice_number = "" then
      .error "Customer and Invoice Number are required."
    else
      .ok (generate_invoice_pdf r invoice_number currency description
        (final_total mode currency total_amount_dkk) booking_count
        due_date_fmt today)

/-- One key of the `updates` dict passed to `update_customer`
    (source lines 249-256). -/
inductive FieldUpdate
  | name (v : String)
  | email (v : String)
  | address (v : String)
  | contact (v : String)
  | vat (v : String)
  | isCompany (v : Bool)
deriving DecidableEq

/-- `setattr(cust, k, v)` for one update key. -/
def setField (c : Customer) : FieldUpdate → Customer
  | .name v => { c with name := v }
  | .email v => { c with email := v }
  | .address v => { c with address := v }
  | .contact v => { c with contact := v }
  | .vat v => { c with vat := v }
  | .isCompany v => { c with is_company := v }

/-- The customer table: id column plus the record fields. -/
abbrev Store := List (ℕ × Customer)

/-- `update_customer(id, updates)` (source lines 41-46):
    `cust = session.query(Customer).get(id)` yields the record or `None`;
    then `setattr(cust, k, v)` per key.  When the id is absent, `cust` is
    `None` and the first `setattr(None, k, v)` raises `AttributeError`;
    with an empty update dict the loop body never runs and the commit is a
    no-op. -/
def update_customer (store : Store) (id : ℕ) (updates : List FieldUpdate) :
    Except String Store :=
  match store.find? (fun p => p.1 = id) with
  | some _ =>
    .ok (store.map (fun p =>
      if p.1 = id then (p.1, updates.foldl setField p.2) else p))
  | none =>
    match updates with
    | [] => .ok store
    | _ :: _ => .error "AttributeError: NoneType has no attribute"

/-- `delete_customer(id)` (source lines 48-51):
    `query.filter(Customer.id == id).delete()` removes matching rows and is a
    no-op when none match. -/
def delete_customer (store : Store) (id : ℕ) : Store :=
  store.filter (fun p => p.1 ≠ id)

/-- A booking row holding only a parsed `Base Rate` value. -/
def mkRow (q : ℚ) : RawRow := ⟨"", "", "", "", "", "", some q⟩

/-- A concrete customer used in closed instances. -/
def sampleCustomer : Customer :=
  ⟨"Acme ApS", "Industrivej 1", "acme@example.com", "", "DK123", true⟩

/-- A concrete customer with an empty email field. -/
def noEmailCustomer : Customer :=
  ⟨"Acme ApS", "Industrivej 1", "", "John", "DK123", true⟩

/-- The spec's upload scenario: amounts [395, 395, 395] plus a trailing 1185. -/
def scenarioRows : List RawRow :=
  [mkRow 395, mkRow 395, mkRow 395, mkRow 1185]

/-- The surviving rows of `scenarioRows` after cleaning. -/
def scenarioCleaned : List RawRow :=
  [mkRow 395, mkRow 395, mkRow 395]

/-- A concrete uploaded row whose `Base Rate` cell is empty. -/
def emptyCellRow : RawRow :=
  ⟨"01/05/2025", "A. Passenger", "CPH", "City", "Acme ApS", "ref-1", none⟩

/-- A concrete generated document used in closed instances. -/
def sampleDoc : PdfDoc :=
  generate_invoice_pdf sampleCustomer "1001" "EUR" "Transfers in May 2025"
    (final_total "Auto from Excel" "EUR" 1185) 3 "15/06/2025" "01/06/2025"

end InvoiceApp

namespace InvoiceApp

theorem roundHalfEven_sub_abs_le (q : ℚ) : |(roundHalfEven q : ℚ) - q| ≤ 1/2 := by
  have hfloor : (⌊q⌋ : ℚ) = q - Int.fract q := by
    rw [Int.fract]; ring
  have h0 : 0 ≤ Int.fract q := Int.fract_nonneg q
  have h1 : Int.fract q < 1 := Int.fract_lt_one q
  unfold roundHalfEven
  split
  · rename_i h
    rw [abs_le]
    constructor
    · push_cast [hfloor]; linarith
    · push_cast [hfloor]; linarith
  · rename_i h
    push_neg at h
    split
    · rename_i h2
      rw [abs_le]
      constructor
      · push_cast [hfloor]; linarith
      · push_cast [hfloor]; linarith
    · rename_i h2
      push_neg at h2
      have heq : Int.fract q = 1/2 := le_antisymm h2 h
      split
      · rw [abs_le]
        constructor
        · push_cast [hfloor]; linarith
        · push_cast [hfloor]; linarith
      · rw [abs_le]
        constructor
        · push_cast [hfloor]; linarith
        · push_cast [hfloor]; linarith

theorem round2_sub_abs_le (q : ℚ) : |round2 q - q| ≤ 1/200 := by
  have h := roundHalfEven_sub_abs_le (100 * q)
  unfold round2
  have heq : (roundHalfEven (100 * q) : ℚ) / 100 - q
      = ((roundHalfEven (100 * q) : ℚ) - 100 * q) / 100 := by ring
  rw [heq, abs_div]
  rw [show |(100 : ℚ)| = 100 by norm_num]
  linarith [h]

theorem roundtrip_bound (a r : ℚ) (hr : 0 < r) :
    |round2 (a / r) * r - a| ≤ r / 200 := by
  have h := round2_sub_abs_le (a / r)
  have heq : round2 (a / r) * r - a = (round2 (a / r) - a / r) * r := by
    field_simp
  rw [heq, abs_mul, abs_of_pos hr]
  calc |round2 (a / r) - a / r| * r ≤ (1/200) * r := by
        apply mul_le_mul_of_nonneg_right h (le_of_lt hr)
    _ = r / 200 := by ring

theorem roundHalfEven_eq_of_lt_half (q : ℚ) (n : ℤ) (h1 : (n : ℚ) ≤ q)
    (h2 : q < (n : ℚ) + 1/2) : roundHalfEven q = n := by
  have hfl : ⌊q⌋ = n := Int.floor_eq_iff.mpr ⟨h1, by linarith⟩
  have hfr : Int.fract q < 1/2 := by
    rw [Int.fract, hfl]; linarith
  unfold roundHalfEven
  rw [if_pos hfr, hfl]

theorem round2_eq (q : ℚ) (n : ℤ) (h1 : (n : ℚ) ≤ 100 * q)
    (h2 : 100 * q < (n : ℚ) + 1/2) : round2 q = (n : ℚ) / 100 := by
  unfold round2
  rw [roundHalfEven_eq_of_lt_half (100 * q) n h1 h2]

theorem convert_currency_eur (a : ℚ) :
    convert_currency a "EUR" = round2 (a / (15/2)) := by
  have h : convert_currency a "EUR" =
      if (15/2 : ℚ) = 0 then a else round2 (a / (15/2)) := rfl
  rw [h, if_neg (by norm_num)]

theorem convert_currency_usd (a : ℚ) :
    convert_currency a "USD" = round2 (a / (13/2)) := by
  have h : convert_currency a "USD" =
      if (13/2 : ℚ) = 0 then a else round2 (a / (13/2)) := rfl
  rw [h, if_neg (by norm_num)]

theorem convert_currency_gbp (a : ℚ) :
    convert_currency a "GBP" = round2 (a / (44/5)) := by
  have h : convert_currency a "GBP" =
      if (44/5 : ℚ) = 0 then a else round2 (a / (44/5)) := rfl
  rw [h, if_neg (by norm_num)]

/-- C1 (amended): currency conversion applies only in automatic mode.  With
    mode "Auto from Excel", a EUR/USD/GBP total is the DKK total divided by
    the fixed rate (7.5, 6.5, 8.8) rounded to 2 decimals, and DKK passes
    through unchanged; in manual mode the total always passes through
    unchanged, whatever the selected currency. -/
theorem C1_final_total_conversion (total : ℚ) (currency : String) :
    final_total "Auto from Excel" "EUR" total = round2 (total / (15/2)) ∧
    final_total "Auto from Excel" "USD" total = round2 (total / (13/2)) ∧
    final_total "Auto from Excel" "GBP" total = round2 (total / (44/5)) ∧
    final_total "Auto from Excel" "DKK" total = total ∧
    final_total "Manual" currency total = total := by
  refine ⟨?_, ?_, ?_, ?_, ?_⟩
  · unfold final_total
    rw [if_pos ⟨rfl, by decide⟩, convert_currency_eur]
  · unfold final_total
    rw [if_pos ⟨rfl, by decide⟩, convert_currency_usd]
  · unfold final_total
    rw [if_pos ⟨rfl, by decide⟩, convert_currency_gbp]
  · unfold final_total
    rw [if_neg (by simp)]
  · unfold final_total
    rw [if_neg (by simp)]

/-- C1 counterexample: in manual mode with currency EUR no conversion
    happens: a 750 DKK home total is emitted as 750, although dividing by
    rate 7.5 and rounding yields 100, so the claim's "manual mode or
    automatic mode" is false for manual mode. -/
theorem C1_counterexample :
    final_total "Manual" "EUR" 750 = 750 ∧
    round2 (750 / (15/2)) = 100 ∧ (750 : ℚ) ≠ 100 := by
  refine ⟨?_, ?_, by norm_num⟩
  · unfold final_total
    rw [if_neg (by simp)]
  · rw [round2_eq (750 / (15/2)) 10000 (by norm_num) (by norm_num)]
    norm_num

/-- C2 (amended): the generate handler validates only that a customer is
    selected and the invoice number is non-empty; a manual request with no
    positive total and no booking rows is not rejected and still yields a
    document. -/
theorem C2_validation_only_customer_and_number (receiver : Option Customer)
    (invoice_number currency mode description : String) (total : ℚ)
    (count : ℕ) (d t : String) :
    (generateInvoice receiver invoice_number currency mode description total
        count d t).isOk = true ↔
      receiver.isSome = true ∧ invoice_number ≠ "" := by
  cases receiver with
  | none => simp [generateInvoice, Except.isOk, Except.toBool]
  | some r =>
    by_cases h : invoice_number = "" <;>
      simp [generateInvoice, Except.isOk, Except.toBool, h]

/-- C2 counterexample: a manual-mode request with a selected customer and
    invoice number "1001", manual total 0 and no booking rows is not rejected
    with a ValidationError: the handler produces a document (with total 0). -/
theorem C2_counterexample :
    generateInvoice (some sampleCustomer) "1001" "DKK" "Manual" "" 0 0
        "15/06/2025" "01/06/2025" =
      .ok (generate_invoice_pdf sampleCustomer "1001" "DKK" "" 0 0
        "15/06/2025" "01/06/2025") := by
  rfl

theorem dropTrailingTotal_concat (init : List RawRow) (r : RawRow) (q : ℚ)
    (hq : r.baseRate = some q) :
    dropTrailingTotal (init ++ [r]) =
      if |q - (baseRates init).sum| < 1 then .ok init
      else .ok (init ++ [r]) := by
  have hbr : baseRates (init ++ [r]) = baseRates init ++ [q] := by
    simp [baseRates, hq]
  simp only [dropTrailingTotal, hbr, List.getLast?_concat,
    List.dropLast_concat]

theorem baseRates_cleaned_example :
    baseRates [mkRow 10, mkRow 20, mkRow 30] = [10, 20, 30] := rfl

/-- C3 (confirmed): for a non-empty cleaned row sequence (written
    `init ++ [r]`, every amount cell present), the last row is dropped iff
    the absolute difference between its amount and the sum of the preceding
    amounts is below 1.0; in particular [10, 20, 30, 60] loses its fourth row
    and [10, 20, 30, 65] keeps it. -/
theorem C3_trailing_total_heuristic (init : List RawRow) (r : RawRow) (q : ℚ)
    (hq : r.baseRate = some q)
    (_hall : ∀ x ∈ init, x.baseRate.isSome = true) :
    (dropTrailingTotal (init ++ [r]) = .ok init ↔
      |q - (baseRates init).sum| < 1) ∧
    dropTrailingTotal [mkRow 10, mkRow 20, mkRow 30, mkRow 60] =
      .ok [mkRow 10, mkRow 20, mkRow 30] ∧
    dropTrailingTotal [mkRow 10, mkRow 20, mkRow 30, mkRow 65] =
      .ok [mkRow 10, mkRow 20, mkRow 30, mkRow 65] := by
  refine ⟨?_, ?_, ?_⟩
  · rw [dropTrailingTotal_concat init r q hq]
    constructor
    · intro h
      by_contra hc
      rw [if_neg hc] at h
      have hinj : init ++ [r] = init := Except.ok.inj h
      have hlen := congrArg List.length hinj
      simp at hlen
    · intro h
      rw [if_pos h]
  · rw [show ([mkRow 10, mkRow 20, mkRow 30, mkRow 60] : List RawRow) =
      [mkRow 10, mkRow 20, mkRow 30] ++ [mkRow 60] from rfl]
    rw [dropTrailingTotal_concat _ _ 60 rfl]
    rw [if_pos]
    rw [baseRates_cleaned_example]
    norm_num [List.sum_cons, List.sum_nil]
  · rw [show ([mkRow 10, mkRow 20, mkRow 30, mkRow 65] : List RawRow) =
      [mkRow 10, mkRow 20, mkRow 30] ++ [mkRow 65] from rfl]
    rw [dropTrailingTotal_concat _ _ 65 rfl]
    rw [if_neg]
    rw [baseRates_cleaned_example]
    norm_num [List.sum_cons, List.sum_nil]

/-- Witness for C3 at the concrete input [10, 20, 30] ++ [60]. -/
theorem C3_witness :
    ((mkRow 60).baseRate = some 60 ∧
      (∀ x ∈ [mkRow 10, mkRow 20, mkRow 30], x.baseRate.isSome = true)) ∧
    ((dropTrailingTotal ([mkRow 10, mkRow 20, mkRow 30] ++ [mkRow 60]) =
        .ok [mkRow 10, mkRow 20, mkRow 30] ↔
      |60 - (baseRates [mkRow 10, mkRow 20, mkRow 30]).sum| < 1) ∧
    dropTrailingTotal [mkRow 10, mkRow 20, mkRow 30, mkRow 60] =
      .ok [mkRow 10, mkRow 20, mkRow 30] ∧
    dropTrailingTotal [mkRow 10, mkRow 20, mkRow 30, mkRow 65] =
      .ok [mkRow 10, mkRow 20, mkRow 30, mkRow 65]) :=
  ⟨⟨rfl, by decide⟩,
    C3_trailing_total_heuristic [mkRow 10, mkRow 20, mkRow 30] (mkRow 60) 60
      rfl (by decide)⟩

/-- C4 counterexample: for the home amount 100.30 DKK and currency EUR the
    round trip misses by 0.025 > 0.01: 100.30 / 7.5 rounds to 13.37 and
    13.37 * 7.5 = 100.275. -/
theorem C4_counterexample :
    rates "EUR" = some (15/2) ∧ (0 : ℚ) ≤ 1003/10 ∧
    ¬ |convert_currency (1003/10) "EUR" * (15/2) - 1003/10| ≤ 1/100 := by
  refine ⟨rfl, by norm_num, ?_⟩
  rw [convert_currency_eur]
  rw [round2_eq (1003/10 / (15/2)) 1337 (by norm_num) (by norm_num)]
  have hv : ((1337 : ℤ) : ℚ) / 100 * (15/2) - 1003/10 = -(1/40) := by
    norm_num
  rw [hv, abs_neg, abs_of_pos (by norm_num : (0:ℚ) < 1/40)]
  norm_num

/-- C4 (amended): the round trip reproduces the amount within half of the
    final rounding unit times the rate, |round2(a/r)*r - a| ≤ r/200, which is
    at most 0.044 for the table's rates (EUR 0.0375, USD 0.0325, GBP 0.044) —
    not within 0.01 as claimed. -/
theorem C4_roundtrip_bound (a : ℚ) (_ha : 0 ≤ a) (c : String) (r : ℚ)
    (hr : rates c = some r) :
    |convert_currency a c * r - a| ≤ r / 200 ∧ r / 200 ≤ 11/250 := by
  by_cases h1 : c = "EUR"
  · subst h1
    have hrr : (15/2 : ℚ) = r := Option.some.inj hr
    rw [← hrr, convert_currency_eur]
    exact ⟨roundtrip_bound a (15/2) (by norm_num), by norm_num⟩
  · by_cases h2 : c = "USD"
    · subst h2
      have hrr : (13/2 : ℚ) = r := Option.some.inj hr
      rw [← hrr, convert_currency_usd]
      exact ⟨roundtrip_bound a (13/2) (by norm_num), by norm_num⟩
    · by_cases h3 : c = "GBP"
      · subst h3
        have hrr : (44/5 : ℚ) = r := Option.some.inj hr
        rw [← hrr, convert_currency_gbp]
        exact ⟨roundtrip_bound a (44/5) (by norm_num), by norm_num⟩
      · exfalso
        have : rates c = none := by
          unfold rates
          split <;> simp_all
        rw [this] at hr
        exact Option.noConfusion hr

/-- Witness for C4 at amount 750 DKK and currency EUR. -/
theorem C4_witness :
    ((0 : ℚ) ≤ 750 ∧ rates "EUR" = some (15/2)) ∧
    (|convert_currency 750 "EUR" * (15/2) - 750| ≤ (15/2) / 200 ∧
      (15/2 : ℚ) / 200 ≤ 11/250) :=
  ⟨⟨by norm_num, rfl⟩, C4_roundtrip_bound 750 (by norm_num) "EUR" (15/2) rfl⟩

/-- C5 (confirmed): whenever the generate handler yields a document, its
    Subtotal cell and its Total Amount Due cell carry the same rendered
    value, and both are the formatted computed final total. -/
theorem C5_subtotal_eq_amount_due (receiver : Option Customer)
    (invoice_number currency mode description : String) (total : ℚ)
    (count : ℕ) (d t : String) (doc : PdfDoc)
    (h : generateInvoice receiver invoice_number currency mode description
      total count d t = .ok doc) :
    doc.subtotalValue = doc.totalDueValue ∧
    doc.subtotalValue =
      fmtMoney (final_total mode currency total) ++ " " ++ currency := by
  cases receiver with
  | none => exact absurd h (by simp [generateInvoice])
  | some r =>
    have hred : generateInvoice (some r) invoice_number currency mode
        description total count d t =
        (if invoice_number = "" then
          Except.error "Customer and Invoice Number are required."
        else
          Except.ok (generate_invoice_pdf r invoice_number currency
            description (final_total mode currency total) count d t)) := rfl
    rw [hred] at h
    by_cases hn : invoice_number = ""
    · rw [if_pos hn] at h
      exact absurd h (by simp)
    · rw [if_neg hn] at h
      have hdoc := Except.ok.inj h
      subst hdoc
      exact ⟨rfl, rfl⟩

/-- Witness for C5 at a concrete automatic-mode EUR request. -/
theorem C5_witness :
    (generateInvoice (some sampleCustomer) "1001" "EUR" "Auto from Excel"
        "Transfers in May 2025" 1185 3 "15/06/2025" "01/06/2025" =
      .ok sampleDoc) ∧
    (sampleDoc.subtotalValue = sampleDoc.totalDueValue ∧
      sampleDoc.subtotalValue =
        fmtMoney (final_total "Auto from Excel" "EUR" 1185) ++ " " ++ "EUR") :=
  ⟨rfl,
    C5_subtotal_eq_amount_due (some sampleCustomer) "1001" "EUR"
      "Auto from Excel" "Transfers in May 2025" 1185 3 "15/06/2025"
      "01/06/2025" sampleDoc rfl⟩

/-- C6 (confirmed): in automatic mode the upload block yields exactly the
    cleaned rows, a booking count equal to their number, and a home-currency
    total equal to the sum of their base rates. -/
theorem C6_auto_mode_totals (rows cleaned : List RawRow)
    (h : cleanUpload rows = .ok cleaned) :
    uploadState rows "Auto from Excel" =
      .ok (cleaned, cleaned.length, (baseRates cleaned).sum) := by
  unfold uploadState
  rw [h]
  simp

theorem cleanUpload_scenario : cleanUpload scenarioRows = .ok scenarioCleaned := by
  have h1 : dropEmpty scenarioRows = scenarioCleaned ++ [mkRow 1185] := rfl
  have hc : |(1185 : ℚ) - (baseRates scenarioCleaned).sum| < 1 := by
    rw [show baseRates scenarioCleaned = [395, 395, 395] from rfl]
    norm_num [List.sum_cons, List.sum_nil]
  unfold cleanUpload
  rw [h1, dropTrailingTotal_concat _ _ 1185 rfl, if_pos hc]

/-- Witness for C6 at the spec scenario [395, 395, 395] plus trailing 1185:
    the trailing row is dropped, count is 3 and the total is 1185. -/
theorem C6_witness :
    cleanUpload scenarioRows = .ok scenarioCleaned ∧
    uploadState scenarioRows "Auto from Excel" =
      .ok (scenarioCleaned, scenarioCleaned.length,
        (baseRates scenarioCleaned).sum) ∧
    scenarioCleaned.length = 3 ∧ (baseRates scenarioCleaned).sum = 1185 :=
  ⟨cleanUpload_scenario,
    C6_auto_mode_totals scenarioRows scenarioCleaned cleanUpload_scenario,
    rfl,
    by rw [show baseRates scenarioCleaned = [395, 395, 395] from rfl]
       norm_num [List.sum_cons, List.sum_nil]⟩

/-- C7 counterexample: for a customer whose email field is empty the bill-to
    block contains no email line at all, refuting "email is emitted
    unconditionally, including when the customer's email field is empty". -/
theorem C7_counterexample :
    noEmailCustomer.email = "" ∧
    billTo noEmailCustomer =
      [BillToLine.name "Acme ApS", BillToLine.contact "Att: John",
       BillToLine.address "Industrivej 1", BillToLine.vat "VAT No: DK123"] := by
  exact ⟨rfl, by decide⟩

/-- C7 (amended): the email line is emitted iff the customer's email field is
    non-empty (the source guards it with `if receiver.email:`). -/
theorem C7_email_line_iff (c : Customer) :
    BillToLine.email ("Email: " ++ c.email) ∈ billTo c ↔ c.email ≠ "" := by
  unfold billTo
  split_ifs <;> simp_all [List.mem_append]

/-- C8 (confirmed): the VAT line appears in the bill-to block iff the
    customer's company flag is set and the VAT field is non-empty. -/
theorem C8_vat_line_iff (c : Customer) :
    BillToLine.vat ("VAT No: " ++ c.vat) ∈ billTo c ↔
      (c.is_company = true ∧ c.vat ≠ "") := by
  cases hb : c.is_company
  · simp only [billTo, hb]
    split_ifs <;> simp_all
  · simp only [billTo, hb]
    split_ifs <;> simp_all

/-- C9 counterexample: updating a non-existent id with a non-empty update set
    is not a silent no-op: `query.get` yields `None` and the first `setattr`
    raises `AttributeError`. -/
theorem C9_counterexample :
    update_customer [(1, sampleCustomer)] 2 [FieldUpdate.name "X"] =
      .error "AttributeError: NoneType has no attribute" := by
  rfl

/-- C9 (amended): for an id not in the store, delete is a silent no-op
    leaving every record unchanged, and update is a silent no-op only for an
    empty update set; any non-empty update set raises an AttributeError. -/
theorem C9_missing_id_behavior (store : Store) (id : ℕ)
    (h : ∀ p ∈ store, p.1 ≠ id) :
    delete_customer store id = store ∧
    update_customer store id [] = .ok store ∧
    (∀ u us, update_customer store id (u :: us) =
      .error "AttributeError: NoneType has no attribute") := by
  have hf : store.find? (fun p => p.1 = id) = none := by
    rw [List.find?_eq_none]
    intro x hx
    simp [h x hx]
  refine ⟨?_, ?_, ?_⟩
  · unfold delete_customer
    rw [List.filter_eq_self]
    intro a ha
    simp [h a ha]
  · unfold update_customer
    rw [hf]
  · intro u us
    unfold update_customer
    rw [hf]

/-- Witness for C9 at a one-record store and the absent id 2. -/
theorem C9_witness :
    (∀ p ∈ [(1, sampleCustomer)], p.1 ≠ 2) ∧
    (delete_customer [(1, sampleCustomer)] 2 = [(1, sampleCustomer)] ∧
      update_customer [(1, sampleCustomer)] 2 [] = .ok [(1, sampleCustomer)] ∧
      (∀ u us, update_customer [(1, sampleCustomer)] 2 (u :: us) =
        .error "AttributeError: NoneType has no attribute")) :=
  ⟨by decide, C9_missing_id_behavior [(1, sampleCustomer)] 2 (by decide)⟩

/-- C10 (confirmed): if every uploaded row's amount cell is empty, the
    cleaning block raises (the `iloc[-1]` probe on the emptied frame is an
    out-of-range access) instead of producing an empty row sequence. -/
theorem C10_all_empty_amounts_error (rows : List RawRow)
    (h : ∀ r ∈ rows, r.baseRate = none) :
    cleanUpload rows =
      .error "IndexError: single positional indexer is out-of-bounds" := by
  have hde : dropEmpty rows = [] := by
    unfold dropEmpty
    rw [List.filter_eq_nil_iff]
    intro a ha
    simp [h a ha]
  unfold cleanUpload
  rw [hde]
  rfl

/-- Witness for C10 at a one-row upload whose amount cell is empty. -/
theorem C10_witness :
    (∀ r ∈ [emptyCellRow], r.baseRate = none) ∧
    cleanUpload [emptyCellRow] =
      .error "IndexError: single positional indexer is out-of-bounds" :=
  ⟨by decide, C10_all_empty_amounts_error [emptyCellRow] (by decide)⟩

end InvoiceApp
